import Mathlib

/-
Verification of the minerva-cloud tile-serving core (serverless/api/src):
a shallow embedding of tileprovider.py, handler.py and lambdautils.py,
with theorems settling the frozen claims about key formats, channel
parsing, error handling, permission gating and region assembly.

Python strings handled by the parsers are modelled as lists of
characters (abbrev Str); storage keys are Lean strings.  Python ints
are modelled as Int; the float32 values produced by numpy conversions
are modelled as exact rationals (the real number the float32
approximates); raw byte buffers and decoded pixel rasters are both
Python objects and are modelled by a single type parameter V.
-/

namespace Minerva

/-- Character strings as handled by the Python parsers. -/
abbrev Str := List Char

/-- Python s.split(sep) for a single-character separator: splitting the
empty string yields one empty field, and separators at the ends yield
empty fields, exactly as in Python. -/
def splitOnChar (sep : Char) : Str → List Str
  | [] => [[]]
  | c :: rest =>
    let r := splitOnChar sep rest
    if c = sep then [] :: r
    else
      match r with
      | h :: t => (c :: h) :: t
      | [] => [[c]]

/-- Value of a character as a digit in bases up to 16 (0-9, a-f, A-F). -/
def digitValue16 (c : Char) : Option Nat :=
  if c.isDigit then some (c.toNat - 48)
  else if ('a' ≤ c && c ≤ 'f') then some (c.toNat - 87)
  else if ('A' ≤ c && c ≤ 'F') then some (c.toNat - 55)
  else none

/-- Nonempty run of digits in the given base, most significant first. -/
def parseDigits (base : Nat) : Str → Option Nat
  | [] => none
  | cs =>
    cs.foldl
      (fun acc c =>
        match acc, digitValue16 c with
        | some a, some d => if d < base then some (a * base + d) else none
        | _, _ => none)
      (some 0)

/-- The Python builtin int(s, base) on a base-10 or base-16 literal:
an optional single sign followed by a nonempty digit run.  The
whitespace and underscore forms Python additionally tolerates are not
modelled. -/
def pyParseInt (base : Nat) (cs : Str) : Option Int :=
  match cs with
  | [] => none
  | c :: rest =>
    if c = '+' then (parseDigits base rest).map Int.ofNat
    else if c = '-' then (parseDigits base rest).map (fun n => -(n : Int))
    else (parseDigits base (c :: rest)).map Int.ofNat

/-- Digits folded to a natural number (helper for float mantissas). -/
def digitsToNat (cs : Str) : Nat :=
  cs.foldl (fun a c => a * 10 + (c.toNat - 48)) 0

/-- Unsigned decimal mantissa: digits, optionally with a decimal point,
where at least one digit is present on at least one side. -/
def parseMantissa (cs : Str) : Option ℚ :=
  let ip := cs.takeWhile Char.isDigit
  let rest := cs.dropWhile Char.isDigit
  match rest with
  | [] => if ip.isEmpty then none else some (digitsToNat ip)
  | c :: fp =>
    if c = '.' then
      if fp.all Char.isDigit && !(ip.isEmpty && fp.isEmpty) then
        some ((digitsToNat ip : ℚ) + (digitsToNat fp : ℚ) / ((10 : ℚ) ^ fp.length))
      else none
    else none

/-- The Python float(s) conversion used by numpy float32 construction:
optional sign, decimal mantissa, optional exponent part.  The value is
the exact rational denoted by the literal; float32 rounding, and the
inf and nan spellings, are not modelled. -/
def pyParseFloat (cs : Str) : Option ℚ :=
  let sgn : Bool × Str :=
    match cs with
    | [] => (false, [])
    | c :: r =>
      if c = '+' then (false, r)
      else if c = '-' then (true, r)
      else (false, c :: r)
  let mant := sgn.2.takeWhile (fun c => !(c == 'e' || c == 'E'))
  let rest := sgn.2.dropWhile (fun c => !(c == 'e' || c == 'E'))
  let expo : Option Int :=
    match rest with
    | [] => some 0
    | _ :: er => pyParseInt 10 er
  match parseMantissa mant, expo with
  | some m, some e =>
    let v := m * (10 : ℚ) ^ e
    some (if sgn.1 then -v else v)
  | _, _ => none

/-! ## Storage keys (tileprovider.py lines 36-37, handler.py lines 233 and 250) -/

/-- File extension chosen by S3TileProvider.get_tile: ".tif" for the
tiff format, otherwise a dot followed by the format name. -/
def tileFileExt (format : String) : String :=
  if format = "tiff" then ".tif" else "." ++ format

/-- The S3 object key built by S3TileProvider.get_tile.  The channel
component c is the already-formatted text Python interpolates (an
integer channel index is formatted by toString at the call sites; the
autosettings path passes the raw channel path segment). -/
def tileKey (uuid : String) (x y z t : Int) (c : String) (level : Int)
    (format : String) : String :=
  uuid ++ "/C" ++ c ++ "-T" ++ toString t ++ "-Z" ++ toString z ++
    "-L" ++ toString level ++ "-Y" ++ toString y ++ "-X" ++ toString x ++
    tileFileExt format

/-- The Redis key built by Handler for prerendered tiles. -/
def prerenderedTileKey (uuid : String) (x y z t level : Int)
    (channelGroup : String) : String :=
  uuid ++ "/T" ++ toString t ++ "-Z" ++ toString z ++ "-L" ++ toString level ++
    "-Y" ++ toString y ++ "-X" ++ toString x ++ "/" ++ channelGroup

/-- Modelled from the spec: the raw-tile storage key template of
section 6, image_id slash C channel minus T t minus Z z minus L level
minus Y y minus X x, then a dot and the extension, with every numeric
component already rendered as text. -/
def specRawTileKey (imageId c t z level y x ext : String) : String :=
  imageId ++ "/C" ++ c ++ "-T" ++ t ++ "-Z" ++ z ++ "-L" ++ level ++
    "-Y" ++ y ++ "-X" ++ x ++ "." ++ ext

/-- Modelled from the spec: the prerendered-tile cache key template of
section 6, image_id slash T t minus Z z minus L level minus Y y minus
X x, slash channel_group_id. -/
def specPrerenderedKey (imageId t z level y x channelGroupId : String) : String :=
  imageId ++ "/T" ++ t ++ "-Z" ++ z ++ "-L" ++ level ++ "-Y" ++ y ++
    "-X" ++ x ++ "/" ++ channelGroupId

/-! ## Error taxonomy (lambdautils.py response decorator) -/

/-- Exception classes observed by the response decorator.  keyError and
valueError are the builtin Python exceptions; authError, tileBound and
aspectRatioErr are the classes declared in lambdautils.py; clientError
is a propagated botocore ClientError (carrying its error code); other
stands for any remaining exception class. -/
inductive Err
  | keyError (msg : String)
  | valueError (msg : String)
  | authError (msg : String)
  | tileBound (msg : String)
  | aspectRatioErr (msg : String)
  | clientError (code : String)
  | other (msg : String)
  deriving DecidableEq

/-- HTTP status assigned by the response decorator to each exception
class: KeyError 400, ValueError and AspectRatioError 422, AuthError
403, TileBoundError 404, anything else 500. -/
def statusOf : Err → Nat
  | .keyError _ => 400
  | .valueError _ => 422
  | .aspectRatioErr _ => 422
  | .authError _ => 403
  | .tileBound _ => 404
  | .clientError _ => 500
  | .other _ => 500

/-! ## S3TileProvider.get_tile (tileprovider.py lines 31-93) -/

/-- A botocore ClientError, identified by its error code. -/
structure ClientErr where
  code : String
  deriving DecidableEq

/-- Environment of one S3TileProvider instance: the optional cache
client (read side), the S3 object store, the two decoders (tifffile
and imagecodecs imread), the zarr reader, and the optional
missing-tile callback.  The callback either raises a TileBoundError
with a message or returns normally. -/
structure TileEnv (V : Type) where
  cacheGet : Option (String → Option V)
  s3Get : String → Except ClientErr V
  zarrGet : Int → Int → Int → Int → String → Int → Except ClientErr V
  decodeTiff : V → V
  decodeImage : V → V
  callback : Option (String → Int → Int → Int → Int → String → Int → Except String Unit)

/-- _get_cached_object: consult the cache only when a cache client is
configured. -/
def tileCacheLookup {V : Type} (env : TileEnv V) (key : String) : Option V :=
  match env.cacheGet with
  | some g => g key
  | none => none

/-- The fetch-and-decode step of get_tile on a cache miss: the zarr
branch reads through the zarr store, any other format reads the raw
object bytes and decodes them with tifffile (tiff) or imagecodecs
(everything else). -/
def tileStoreFetch {V : Type} (env : TileEnv V) (x y z t : Int) (c : String)
    (level : Int) (format : String) (key : String) : Except ClientErr V :=
  if format = "zarr" then env.zarrGet x y z t c level
  else
    match env.s3Get key with
    | .error e => .error e
    | .ok data => .ok (if format = "tiff" then env.decodeTiff data else env.decodeImage data)

/-- Outcome of one get_tile call: the returned value (some image, or
none when the missing-tile callback returned normally and the Python
function fell through to an implicit None), or the propagated
exception; plus the list of cache writes performed. -/
structure GetTileResult (V : Type) where
  result : Except Err (Option V)
  cacheWrites : List (String × V)

/-- S3TileProvider.get_tile.  Builds the key, consults the cache, on a
miss fetches and decodes, writes the decoded image through to the
cache when a cache client is configured, and on a ClientError from the
store invokes the missing-tile callback when the code is NoSuchKey and
a callback is configured, propagating the ClientError otherwise. -/
def getTile {V : Type} (env : TileEnv V) (uuid : String) (x y z t : Int)
    (c : String) (level : Int) (format : String) : GetTileResult V :=
  let key := tileKey uuid x y z t c level format
  match tileCacheLookup env key with
  | some image => ⟨.ok (some image), []⟩
  | none =>
    match tileStoreFetch env x y z t c level format key with
    | .ok image =>
      ⟨.ok (some image), if env.cacheGet.isSome then [(key, image)] else []⟩
    | .error e =>
      match env.callback with
      | some cb =>
        if e.code = "NoSuchKey" then
          match cb uuid x y z t c level with
          | .ok _ => ⟨.ok none, []⟩
          | .error msg => ⟨.error (.tileBound msg), []⟩
        else ⟨.error (.clientError e.code), []⟩
      | none => ⟨.error (.clientError e.code), []⟩

/-! ## Channel parameter parsing (handler.py lines 106-182) -/

/-- A parsed channel rendering parameter: integer index, unit-interval
color triple, and normalized intensity bounds.  The float32 values of
the Python record are modelled as exact rationals. -/
structure Channel where
  index : Int
  color : ℚ × ℚ × ℚ
  min : ℚ
  max : ℚ
  deriving DecidableEq

/-- _hex_to_rgb: require exactly six characters, then convert the
three two-character slices at offsets 0, 2, 4 with the base-16 int
builtin.  A slice such as a sign followed by one hex digit is accepted
by the Python int builtin and hence here. -/
def hexToRgb (color : Str) : Option (Int × Int × Int) :=
  if color.length ≠ 6 then none
  else
    match pyParseInt 16 ((color.drop 0).take 2),
        pyParseInt 16 ((color.drop 2).take 2),
        pyParseInt 16 ((color.drop 4).take 2) with
    | some r, some g, some b => some (r, g, b)
    | _, _, _ => none

/-- _parse_channel_params: split on commas, require exactly four
fields, then build the channel record from the int index, the
hex-decoded color scaled by 255, and the two float bounds.  Any
conversion failure raises a ValueError exactly as the Python builtins
do. -/
def parseChannelParams (s : Str) : Except Err Channel :=
  match splitOnChar ',' s with
  | [p0, p1, p2, p3] =>
    match pyParseInt 10 p0 with
    | none => .error (.valueError ("invalid literal for int: " ++ String.mk p0))
    | some idx =>
      match hexToRgb p1 with
      | none => .error (.valueError ("Hex color value " ++ String.mk p1 ++ " invalid"))
      | some (r, g, b) =>
        match pyParseFloat p2 with
        | none => .error (.valueError ("could not convert string to float: " ++ String.mk p2))
        | some mn =>
          match pyParseFloat p3 with
          | none => .error (.valueError ("could not convert string to float: " ++ String.mk p3))
          | some mx =>
            .ok { index := idx
                  color := ((r : ℚ) / 255, (g : ℚ) / 255, (b : ℚ) / 255)
                  min := mn
                  max := mx }
  | _ => .error (.valueError ("Incorrect rendering setting: " ++ String.mk s))

/-- One database channel record of a saved channel group, as consumed
by _channels_json_to_params: integer id, hex color text, numeric
bounds. -/
structure ChannelRec where
  id : Int
  color : Str
  min : ℚ
  max : ℚ

/-- _channels_json_to_params on one record: the hex conversion may
raise a ValueError; the numeric fields convert directly. -/
def channelRecToParams (rec : ChannelRec) : Except Err Channel :=
  match hexToRgb rec.color with
  | none => .error (.valueError ("Hex color value " ++ String.mk rec.color ++ " invalid"))
  | some (r, g, b) =>
    .ok { index := rec.id
          color := ((r : ℚ) / 255, (g : ℚ) / 255, (b : ℚ) / 255)
          min := rec.min
          max := rec.max }

/-- The accumulating loop of _channels_json_to_params. -/
def channelsJsonToParamsAux : List ChannelRec → List Channel → Except Err (List Channel)
  | [], acc => .ok acc
  | rec :: rest, acc =>
    match channelRecToParams rec with
    | .error e => .error e
    | .ok ch => channelsJsonToParamsAux rest (acc ++ [ch])

/-- _channels_json_to_params over the record list, stopping at the
first failure as the Python loop does. -/
def channelsJsonToParams (recs : List ChannelRec) : Except Err (List Channel) :=
  channelsJsonToParamsAux recs []

/-- _parse_omero_channels on one comma-separated entry.  The id is the
text before the first bar; a negative id turns the channel off.  For a
kept channel the settings after the bar split at the dollar sign into
the colon-separated bounds and the hex color; a missing bar, colon or
dollar raises an IndexError (mapped to a 500-class error by the
response decorator), a failed int conversion raises a ValueError, and
the hex conversion raises its own ValueError.  The order of the
conversions mirrors the Python statement order. -/
def parseOmeroEntry (entry : Str) : Except Err (Option Channel) :=
  let parts := splitOnChar '|' entry
  match pyParseInt 10 (parts.headD []) with
  | none => .error (.valueError ("invalid literal for int: " ++ String.mk (parts.headD [])))
  | some channelId =>
    if channelId < 0 then .ok none
    else
      match parts[1]? with
      | none => .error (.other "list index out of range")
      | some settings =>
        let sp := splitOnChar '$' settings
        let mm := splitOnChar ':' (sp.headD [])
        match pyParseInt 10 (mm.headD []) with
        | none => .error (.valueError ("invalid literal for int: " ++ String.mk (mm.headD [])))
        | some cmin =>
          match mm[1]? with
          | none => .error (.other "list index out of range")
          | some mxs =>
            match pyParseInt 10 mxs with
            | none => .error (.valueError ("invalid literal for int: " ++ String.mk mxs))
            | some cmax =>
              match sp[1]? with
              | none => .error (.other "list index out of range")
              | some colorStr =>
                match hexToRgb colorStr with
                | none => .error (.valueError ("Hex color value " ++ String.mk colorStr ++ " invalid"))
                | some (r, g, b) =>
                  .ok (some { index := channelId - 1
                              color := ((r : ℚ) / 255, (g : ℚ) / 255, (b : ℚ) / 255)
                              min := (cmin : ℚ) / 65535
                              max := (cmax : ℚ) / 65535 })

/-- The accumulating loop of _parse_omero_channels: an entry parse
failure propagates, a switched-off channel adds nothing, a kept
channel is appended. -/
def parseOmeroChannelsAux : List Str → List Channel → Except Err (List Channel)
  | [], acc => .ok acc
  | e :: rest, acc =>
    match parseOmeroEntry e with
    | .error err => .error err
    | .ok none => parseOmeroChannelsAux rest acc
    | .ok (some ch) => parseOmeroChannelsAux rest (acc ++ [ch])

/-- _parse_omero_channels: split the query value on commas and fold
the per-entry parser, keeping the channels whose id is
non-negative. -/
def parseOmeroChannels (c : Str) : Except Err (List Channel) :=
  parseOmeroChannelsAux (splitOnChar ',' c) []

/-- _parse_omero_tile: level, x, y from the comma-separated tile query
value. -/
def parseOmeroTile (tile : Str) : Except Err (Int × Int × Int) :=
  let parts := splitOnChar ',' tile
  match parts[0]?, parts[1]?, parts[2]? with
  | some a, some b, some c =>
    match pyParseInt 10 a, pyParseInt 10 b, pyParseInt 10 c with
    | some l, some x, some y => .ok (l, x, y)
    | _, _, _ => .error (.valueError "invalid literal for int")
  | _, _, _ => .error (.other "list index out of range")

/-! ## UUID validation (lambdautils.py validate_uuid) -/

/-- A character matched by the uuid pattern character class. -/
def lowerAlnum (c : Char) : Bool :=
  c.isDigit || ('a' ≤ c && c ≤ 'z')

/-- The uuid regular expression: five minus-separated groups of
lowercase alphanumerics of lengths 8, 4, 4, 4 and 12.  The trailing
newline a Python dollar anchor also tolerates is not modelled. -/
def validUuidChars (cs : Str) : Bool :=
  match splitOnChar '-' cs with
  | [a, b, c, d, e] =>
    a.length == 8 && b.length == 4 && c.length == 4 && d.length == 4 &&
      e.length == 12 && (a ++ b ++ c ++ d ++ e).all lowerAlnum
  | _ => false

/-- validate_uuid applied to a path parameter. -/
def validUuid (s : String) : Bool :=
  validUuidChars s.toList

/-- Message raised by validate_uuid. -/
def uuidErrMsg : String :=
  "UUID is invalid. Valid uuids are of the form xxxxxxxx-xxxx-xxxx-xxxx-xxxxxxxxxxxx"

/-! ## Observable effects of one request (handler.py Handler methods)

Each handler is modelled as a computation that either produces a
response body or raises one of the exceptions of Err, while logging
the externally observable effects (permission check, database query,
cache read and write, tile fetch) in order. -/

/-- Observable effect kinds. -/
inductive Ev
  | validate
  | permCheck
  | dbQuery
  | cacheRead
  | tileFetch
  | cacheWrite
  | metaRead
  deriving DecidableEq

/-- A handler step: its outcome together with the effects it logged,
in order. -/
def M (α : Type) : Type := Except Err α × List Ev

/-- Monadic unit for M. -/
def M.pure {α : Type} (a : α) : M α := (.ok a, [])

/-- Monadic bind for M: effects of the first step, then, if it
succeeded, the effects of the continuation. -/
def M.bind {α β : Type} (m : M α) (f : α → M β) : M β :=
  match m with
  | (.ok a, tr) =>
    let r := f a
    (r.1, tr ++ r.2)
  | (.error e, tr) => (.error e, tr)

instance : Monad M where
  pure := @M.pure
  bind := @M.bind

/-- Log one effect. -/
def emit (e : Ev) : M Unit := (.ok (), [e])

/-- Raise an exception. -/
def throwE {α : Type} (err : Err) : M α := (.error err, [])

/-- Run a pure fallible step without effects. -/
def liftE {α : Type} (e : Except Err α) : M α := (e, [])

/-- validate_uuid on a path parameter: a validation effect, then a
ValueError when the pattern does not match. -/
def validateUuidM (u : String) : M Unit := do
  emit .validate
  if validUuid u then pure () else throwE (.valueError uuidErrMsg)

/-- One database channel-group record (get_image_channel_group). -/
structure ImageRec where
  filesetUuid : String
  pyramidLevels : Int

/-- The fileset record backing the requested image. -/
structure FilesetRec where
  complete : Bool

/-- Scaling factor as computed by render_region: either a single
number or a per-axis pair (Python compares the value against 1, and a
tuple never equals 1). -/
inductive SF
  | scalar (q : ℚ)
  | pair (h w : ℚ)
  deriving DecidableEq

/-- The Python comparison scaling_factor != 1, negated. -/
def SF.isOne : SF → Bool
  | .scalar q => q == 1
  | .pair _ _ => false

/-- One render_region fetch argument tuple (uuid, j, i, z, t, id,
level) in get_tile parameter order (x := j, y := i, c := id). -/
structure FetchArg where
  uuid : String
  x : Int
  y : Int
  z : Int
  t : Int
  c : Int
  level : Int
  deriving DecidableEq

/-- One render_region subtile record (grid, color, min, max) before
the image is attached. -/
structure SubTileMeta where
  grid : Int × Int
  color : ℚ × ℚ × ℚ
  min : ℚ
  max : ℚ
  deriving DecidableEq

/-- Environment of the API handlers: the three layers consulted by
_has_image_permission for (user, image, Read) — the in-process dict
entry (an int, when the key is present), the raw-Redis get result (the
stored bytes, when the client is configured and the key is present;
Redis get returns bytes), and the database answer — the two optional
Redis caches, the object store and decoders shared with the tile
provider, the database records, the metadata geometry, and the
minerva_lib rendering primitives, which are external to this
repository and enter as opaque functions.  The raw-tile Redis client
doubles as the permission cache, so that layer is active exactly when
rawCache is configured. -/
structure ApiEnv (V : Type) where
  permDict : Option Int
  permRedisGet : Option String
  permDb : Bool
  rawCache : Option (String → Option V)
  preCache : Option (String → Option V)
  s3Get : String → Except ClientErr V
  zarrGet : Int → Int → Int → Int → String → Int → Except ClientErr V
  decodeTiff : V → V
  decodeImage : V → V
  channelGroup : String → List ChannelRec
  image : ImageRec
  fileset : FilesetRec
  imageShape : Int × Int
  optimumLevel : Int × Int → Int → Int → Bool → Except Unit Int
  toLevel : Int × Int → Int → Int × Int
  selectGrids : Int × Int → Int × Int → Int × Int → List (Int × Int)
  compositeChannels : List (Channel × V) → ℚ → V
  compositeSubtiles : List (SubTileMeta × V) → Int × Int → Int × Int → Int × Int → V
  scaleNearest : V → SF → V
  quantize : V → V
  encodeJpg : V → V
  encodePng : V → V
  autoGaussian : V → V × V
  autoHistogram : V → V × V

/-- The memoization layers of _has_image_permission, before the
database is consulted.  A dict hit converts the stored int with the
bool builtin, so a cached 0 correctly denies.  A Redis hit converts
the returned BYTES with the bool builtin: any non-empty byte string —
including the b zero written for a cached denial — is truthy, so this
layer can only grant. -/
def permLookup {V : Type} (env : ApiEnv V) : Option Bool :=
  match env.permDict with
  | some v => some (decide (v ≠ 0))
  | none =>
    if env.rawCache.isSome then
      match env.permRedisGet with
      | some bs => some (decide (bs.length ≠ 0))
      | none => none
    else none

/-- The boolean _has_image_permission ends up testing: the first
memoization layer that answers, falling back to the database
answer (which is also written back to both caches, a write not
modelled as a tile-cache event). -/
def ApiEnv.permitted {V : Type} (env : ApiEnv V) : Bool :=
  match permLookup env with
  | some p => p
  | none => env.permDb

/-- The S3TileProvider instance a handler constructs, with the given
cache client and missing-tile callback. -/
def ApiEnv.tileEnv {V : Type} (env : ApiEnv V) (cache : Option (String → Option V))
    (cb : Option (String → Int → Int → Int → Int → String → Int → Except String Unit)) :
    TileEnv V :=
  { cacheGet := cache
    s3Get := env.s3Get
    zarrGet := env.zarrGet
    decodeTiff := env.decodeTiff
    decodeImage := env.decodeImage
    callback := cb }

/-- Message raised by handle_missing_tile. -/
def missingTileMsg (uuid : String) (x y z t : Int) (c : String) (level : Int) : String :=
  "Requested tile not found uuid=" ++ uuid ++ " c=" ++ c ++ " x=" ++ toString x ++
    " y=" ++ toString y ++ " z=" ++ toString z ++ " t=" ++ toString t ++
    " level=" ++ toString level

/-- handle_missing_tile: always raises a TileBoundError naming the
requested coordinates. -/
def handleMissingTile : String → Int → Int → Int → Int → String → Int → Except String Unit :=
  fun uuid x y z t c level => .error (missingTileMsg uuid x y z t c level)

/-- _has_image_permission: consult the in-process dict, then the raw
Redis client, then the database, and raise AuthError when the
resulting boolean is false.  The whole lookup is one permCheck
effect. -/
def hasImagePermissionM {V : Type} (env : ApiEnv V) : M Unit := do
  emit .permCheck
  if env.permitted then pure () else throwE (.authError "Permission Denied")

/-- One get_tile call made from a handler: a fetch effect, one cache
write effect per cache write, and the outcome of the call. -/
def getTileM {V : Type} (tenv : TileEnv V) (uuid : String) (x y z t : Int)
    (c : String) (level : Int) : M (Option V) :=
  let r := getTile tenv uuid x y z t c level "tiff"
  (r.result, Ev.tileFetch :: r.cacheWrites.map (fun _ => Ev.cacheWrite))

/-- A handler that receives None where a pixel raster is expected
fails inside the rendering library with an unclassified exception. -/
def requireImages {V : Type} : List (Option V) → M (List V)
  | [] => M.pure []
  | some v :: rest => M.bind (requireImages rest) (fun l => M.pure (v :: l))
  | none :: _ => (.error (.other "NoneType image"), [])

/-- The accumulating loop behind the channel list comprehension. -/
def parseChannelListAux : List Str → List Channel → Except Err (List Channel)
  | [], acc => .ok acc
  | d :: rest, acc =>
    match parseChannelParams d with
    | .error e => .error e
    | .ok ch => parseChannelListAux rest (acc ++ [ch])

/-- The channel list comprehension of render_tile and render_region:
parse each descriptor, propagating the first failure. -/
def parseChannelList (descs : List Str) : Except Err (List Channel) :=
  parseChannelListAux descs []

/-- Handler response bodies: encoded image bytes, the empty warmup
body, the all-zero raster returned when every OMERO channel is off, or
the autosettings result list. -/
inductive Out (V : Type)
  | bytes (v : V)
  | empty
  | zeros (h w c : Nat)
  | settings (l : List (String × V × V))
  deriving DecidableEq

/-- Handler._render_tile: fetch one raw tile per channel through a
provider that uses the raw cache and the missing-tile callback, attach
the images, composite and encode. -/
def renderTileCore {V : Type} (env : ApiEnv V) (uuid : String) (x y z t level : Int)
    (channels : List Channel) (gamma : ℚ) : M V := do
  let tenv := env.tileEnv env.rawCache (some handleMissingTile)
  let images ← channels.mapM (fun ch => getTileM tenv uuid x y z t (toString ch.index) level)
  let imgs ← requireImages images
  pure (env.encodeJpg (env.compositeChannels (channels.zip imgs) gamma))

/-! ### The six public handlers -/

/-- Path parameters of raw_tile (already numeric). -/
structure RawTileReq where
  uuid : String
  x : Int
  y : Int
  z : Int
  t : Int
  level : Int
  channel : Int

/-- Handler.raw_tile. -/
def rawTile {V : Type} (env : ApiEnv V) (req : RawTileReq) : M (Out V) := do
  validateUuidM req.uuid
  hasImagePermissionM env
  let tenv := env.tileEnv env.rawCache (some handleMissingTile)
  let tile ← getTileM tenv req.uuid req.x req.y req.z req.t (toString req.channel) req.level
  match tile with
  | some v => pure (Out.bytes (env.encodePng v))
  | none => throwE (.other "NoneType image")

/-- Parameters of render_tile: warmup records whether the warmup query
parameter is present; gamma is the parsed optional query parameter;
channelsPath is the raw channels path parameter. -/
structure RenderTileReq where
  uuid : String
  x : Int
  y : Int
  z : Int
  t : Int
  level : Int
  warmup : Bool
  gamma : Option ℚ
  channelsPath : Str

/-- Handler.render_tile: a warmup request returns the empty body
before any validation. -/
def renderTile {V : Type} (env : ApiEnv V) (req : RenderTileReq) : M (Out V) :=
  if req.warmup then M.pure Out.empty
  else do
    validateUuidM req.uuid
    hasImagePermissionM env
    let gamma := match req.gamma with | some g => g | none => 1
    let channels ← liftE (parseChannelList (splitOnChar '/' req.channelsPath))
    let v ← renderTileCore env req.uuid req.x req.y req.z req.t req.level channels gamma
    pure (Out.bytes v)

/-- Parameters of omero_render_tile: tile and c are the raw query
strings. -/
structure OmeroTileReq where
  uuid : String
  z : Int
  t : Int
  tile : Str
  c : Str

/-- Handler.omero_render_tile: parse the OMERO-style tile and channel
query strings; when every channel is off return a one-by-one
three-channel all-zero 8-bit raster as a success. -/
def omeroRenderTile {V : Type} (env : ApiEnv V) (req : OmeroTileReq) : M (Out V) := do
  validateUuidM req.uuid
  hasImagePermissionM env
  let lxy ← liftE (parseOmeroTile req.tile)
  let channels ← liftE (parseOmeroChannels req.c)
  if channels.isEmpty then pure (Out.zeros 1 1 3)
  else do
    let v ← renderTileCore env req.uuid lxy.2.1 lxy.2.2 req.z req.t lxy.1 channels 1
    pure (Out.bytes v)

/-- Parameters of prerendered_tile. -/
structure PrerenderedTileReq where
  uuid : String
  x : Int
  y : Int
  z : Int
  t : Int
  level : Int
  warmup : Bool
  channelGroup : String

/-- Handler.prerendered_tile: warmup short-circuits; otherwise consult
the prerendered cache by its key, and on a miss load the saved channel
group, render, and write the result back when the cache is
configured. -/
def prerenderedTile {V : Type} (env : ApiEnv V) (req : PrerenderedTileReq) : M (Out V) :=
  if req.warmup then M.pure Out.empty
  else do
    validateUuidM req.uuid
    hasImagePermissionM env
    let key := prerenderedTileKey req.uuid req.x req.y req.z req.t req.level req.channelGroup
    let cached : Option V ←
      match env.preCache with
      | none => pure none
      | some g => do
        emit .cacheRead
        pure (g key)
    match cached with
    | some v => pure (Out.bytes v)
    | none => do
      emit .dbQuery
      let channels ← liftE (channelsJsonToParams (env.channelGroup req.channelGroup))
      let v ← renderTileCore env req.uuid req.x req.y req.z req.t req.level channels 1
      if env.preCache.isSome then emit .cacheWrite else pure ()
      pure (Out.bytes v)

/-- Parameters of render_region. -/
structure RegionReq where
  uuid : String
  x : Int
  y : Int
  width : Int
  height : Int
  z : Int
  t : Int
  channelsPath : Str
  outputWidth : Option Int
  outputHeight : Option Int
  preferHigher : Bool

/-- max over the output dimensions that are present (the Python max of
the filtered pair, None when the list is empty and max raises). -/
def outputMaxOf (outputHeight outputWidth : Option Int) : Option Int :=
  match outputHeight, outputWidth with
  | none, none => none
  | some h, none => some h
  | none, some w => some w
  | some h, some w => some (max h w)

/-- The level selection of render_region: when no output dimension is
present the max of the empty list raises a ValueError, and when the
optimum-level computation raises a ValueError, the handler catches it
and falls back to level 0. -/
def chooseLevel {V : Type} (env : ApiEnv V) (outputHeight outputWidth : Option Int)
    (prefer : Bool) : Int :=
  match outputMaxOf outputHeight outputWidth with
  | none => 0
  | some m =>
    match env.optimumLevel env.imageShape env.image.pyramidLevels m prefer with
    | .ok l => l
    | .error _ => 0

/-- The scaling-factor computation of render_region, including the
ZeroDivisionError Python raises when a level-local extent is zero. -/
def scalingFactor (outputWidth outputHeight : Option Int) (shape : Int × Int) :
    Except Err SF :=
  match outputWidth with
  | some ow =>
    match outputHeight with
    | some oh =>
      if shape.1 = 0 ∨ shape.2 = 0 then .error (.other "division by zero")
      else .ok (.pair ((oh : ℚ) / (shape.1 : ℚ)) ((ow : ℚ) / (shape.2 : ℚ)))
    | none =>
      if shape.2 = 0 then .error (.other "division by zero")
      else .ok (.scalar ((ow : ℚ) / (shape.2 : ℚ)))
  | none =>
    match outputHeight with
    | some oh =>
      if shape.1 = 0 then .error (.other "division by zero")
      else .ok (.scalar ((oh : ℚ) / (shape.1 : ℚ)))
    | none => .ok (.scalar 1)

/-- The double loop of render_region that builds the fetch argument
list and the subtile list, skipping any grid index pair with a
negative component. -/
def regionPairs (uuid : String) (z t level : Int) (channels : List Channel)
    (grids : List (Int × Int)) : List (FetchArg × SubTileMeta) :=
  channels.flatMap (fun ch =>
    grids.filterMap (fun ij =>
      if ij.1 < 0 ∨ ij.2 < 0 then none
      else some (⟨uuid, ij.2, ij.1, z, t, ch.index, level⟩,
                 ⟨ij, ch.color, ch.min, ch.max⟩)))

/-- Message of the UnboundLocalError that escapes render_region when
the fetch list is empty: ThreadPool(0) raises
ValueError (Number of processes must be at least 1) inside the try
block, before the local name pool is bound, and the finally-block
pool.close() then raises UnboundLocalError, which replaces the
ValueError as the propagated exception and is mapped to a 500
response by the decorator. -/
def poolUnboundMsg : String :=
  "cannot access local variable pool where it is not associated with a value"

/-- Handler.render_region: validate and authorize, parse channels,
load the image and fileset records, refuse a fileset whose metadata
extraction is incomplete, read the metadata geometry, select the
pyramid level with a level-0 fallback, transform coordinates, compute
the scaling factor, build the fetch list skipping negative grid
indices, fetch through a provider with no cache, composite the
subtiles, resample when the scaling factor differs from 1, and
encode.  With zero fetch tasks the pool constructor raises a
ValueError before the local pool name is bound, and the finally-block
close call masks it with an UnboundLocalError (a 500-class
exception). -/
def renderRegion {V : Type} (env : ApiEnv V) (req : RegionReq) : M (Out V) := do
  validateUuidM req.uuid
  hasImagePermissionM env
  let channels ← liftE (parseChannelList (splitOnChar '/' req.channelsPath))
  emit .dbQuery
  let image := env.image
  emit .dbQuery
  let fileset := env.fileset
  if fileset.complete then do
    emit .metaRead
    let tileShape : Int × Int := (1024, 1024)
    let targetShape : Int × Int := (req.height, req.width)
    let level := chooseLevel env req.outputHeight req.outputWidth req.preferHigher
    let origin := env.toLevel (req.x, req.y) level
    let shape := env.toLevel targetShape level
    let sf ← liftE (scalingFactor req.outputWidth req.outputHeight shape)
    let pairs := regionPairs req.uuid req.z req.t level channels
      (env.selectGrids tileShape origin shape)
    if pairs.isEmpty then throwE (.other poolUnboundMsg)
    else do
      let tenv := env.tileEnv none (some handleMissingTile)
      let images ← pairs.mapM
        (fun p => getTileM tenv p.1.uuid p.1.x p.1.y p.1.z p.1.t (toString p.1.c) p.1.level)
      let imgs ← requireImages images
      let composite := env.compositeSubtiles ((pairs.map Prod.snd).zip imgs)
        tileShape origin shape
      let scaled := if sf.isOne then composite else env.scaleNearest composite sf
      pure (Out.bytes (env.encodeJpg (env.quantize scaled)))
  else throwE (.valueError ("Fileset has not had metadata extracted yet: " ++ image.filesetUuid))

/-- Parameters of get_autosettings. -/
structure AutoSettingsReq where
  uuid : String
  channelsPath : Str
  method : Option String

/-- Handler._autosettings_channel: fetch the coarsest-level tile of
one channel (the channel path segment is passed to get_tile verbatim)
and estimate its intensity bounds with the requested method. -/
def autosettingsChannel {V : Type} (env : ApiEnv V) (tenv : TileEnv V) (uuid : String)
    (channel : Str) (level : Int) (method : Option String) : M (String × V × V) := do
  let data ← getTileM tenv uuid 0 0 0 0 (String.mk channel) level
  match data with
  | none => throwE (.other "NoneType image")
  | some v =>
    let mm := if method = some "gaussian" then env.autoGaussian v else env.autoHistogram v
    pure (String.mk channel, mm.1, mm.2)

/-- Handler.get_autosettings: validate and authorize, query the image
record for the coarsest level, and estimate each requested channel
through a provider with no cache and no callback. -/
def getAutosettings {V : Type} (env : ApiEnv V) (req : AutoSettingsReq) : M (Out V) := do
  validateUuidM req.uuid
  hasImagePermissionM env
  emit .dbQuery
  let maxLevel := env.image.pyramidLevels - 1
  let channelIds := splitOnChar ',' req.channelsPath
  let tenv := env.tileEnv none none
  let res ← channelIds.mapM
    (fun ch => autosettingsChannel env tenv req.uuid ch maxLevel req.method)
  pure (Out.settings res)

/-! ## Environments and claim statements used by the claim theorems -/

/-- Concrete tile environment exercising the ClientError path: an
always-missing cache, a store that reports NoSuchKey everywhere, and
the handle_missing_tile callback. -/
def c2Env : TileEnv Nat :=
  { cacheGet := some (fun _ => none)
    s3Get := fun _ => .error ⟨"NoSuchKey"⟩
    zarrGet := fun _ _ _ _ _ _ => .error ⟨"NoSuchKey"⟩
    decodeTiff := fun v => v + 1
    decodeImage := fun v => v + 2
    callback := some handleMissingTile }

/-- The literal reading of claim C8 for the tiff format: with a cache
configured, a cache hit is decoded according to the stored format
before being returned, and on a cache miss the raw fetched bytes, not
the decoded raster, are written through to the cache. -/
def c8ClaimStatement : Prop :=
  ∀ (V : Type) (env : TileEnv V) (uuid : String) (x y z t : Int) (c : String)
    (level : Int),
    env.cacheGet.isSome = true →
    (∀ v, tileCacheLookup env (tileKey uuid x y z t c level "tiff") = some v →
      (getTile env uuid x y z t c level "tiff").result = .ok (some (env.decodeTiff v))) ∧
    (∀ data, tileCacheLookup env (tileKey uuid x y z t c level "tiff") = none →
      env.s3Get (tileKey uuid x y z t c level "tiff") = .ok data →
      (getTile env uuid x y z t c level "tiff").cacheWrites =
        [(tileKey uuid x y z t c level "tiff", data)])

/-- Concrete tile environment whose cache always hits with the value
5 and whose decoder is the successor function, separating the cached
value from its decoding. -/
def c8HitEnv : TileEnv Nat :=
  { cacheGet := some (fun _ => some 5)
    s3Get := fun _ => .ok 10
    zarrGet := fun _ _ _ _ _ _ => .ok 0
    decodeTiff := fun v => v + 1
    decodeImage := fun v => v + 2
    callback := none }

/-- Concrete tile environment whose cache always misses and whose
store returns the value 10, so the decoded value 11 is what gets
written through. -/
def c8MissEnv : TileEnv Nat :=
  { cacheGet := some (fun _ => none)
    s3Get := fun _ => .ok 10
    zarrGet := fun _ _ _ _ _ _ => .ok 0
    decodeTiff := fun v => v + 1
    decodeImage := fun v => v + 2
    callback := none }

/-- Whether a fallible computation succeeded. -/
def isOkB {α : Type} : Except Err α → Bool
  | .ok _ => true
  | .error _ => false

/-- A hexadecimal digit character. -/
def isHexDigit (c : Char) : Bool :=
  c.isDigit || ('a' ≤ c && c ≤ 'f') || ('A' ≤ c && c ≤ 'F')

/-- Exactly six hexadecimal digit characters. -/
def isSixHexDigits (s : Str) : Bool :=
  s.length == 6 && s.all isHexDigit

/-- The error condition claimed by C4: parsing fails exactly when the
descriptor does not split on commas into exactly four fields or the
color field is not exactly six hex digits. -/
def c4ErrClaimed (s : Str) : Bool :=
  match splitOnChar ',' s with
  | [_, p1, _, _] => !(isSixHexDigits p1)
  | _ => true

/-- The error condition _parse_channel_params actually implements:
four fields, an index accepted by the int builtin, a color accepted by
_hex_to_rgb, and bounds accepted by the float conversion. -/
def c4ErrAmended (s : Str) : Bool :=
  match splitOnChar ',' s with
  | [p0, p1, p2, p3] =>
    (pyParseInt 10 p0).isNone || (hexToRgb p1).isNone ||
      (pyParseFloat p2).isNone || (pyParseFloat p3).isNone
  | _ => true

/-- Modelled from the spec: strict decomposition of one OMERO channel
entry of the form id bar min colon max dollar hexcolor into its four
component strings. -/
def omeroEntryParts (entry : Str) : Option (Str × Str × Str × Str) :=
  match splitOnChar '|' entry with
  | [idStr, settings] =>
    match splitOnChar '$' settings with
    | [minmax, colorStr] =>
      match splitOnChar ':' minmax with
      | [mnStr, mxStr] => some (idStr, mnStr, mxStr, colorStr)
      | _ => none
    | _ => none
  | _ => none

/-- A strictly well-formed OMERO channel entry: the decomposition
succeeds and the id converts to an integer; when the id is
non-negative the bounds and the color must convert as well. -/
def omeroEntryWF (entry : Str) : Bool :=
  match omeroEntryParts entry with
  | none => false
  | some (idStr, mnStr, mxStr, colorStr) =>
    match pyParseInt 10 idStr with
    | none => false
    | some i =>
      decide (i < 0) ||
        ((pyParseInt 10 mnStr).isSome && (pyParseInt 10 mxStr).isSome &&
          (hexToRgb colorStr).isSome)

/-- Modelled from the spec: the channel one OMERO entry denotes — none
when the id is negative (channel off), otherwise the channel with the
external 1-based id converted to a 0-based index, the 16-bit bounds
normalized by 65535, and the decoded color bytes each divided by
255. -/
def specOmeroChannel (entry : Str) : Option Channel :=
  match omeroEntryParts entry with
  | none => none
  | some (idStr, mnStr, mxStr, colorStr) =>
    match pyParseInt 10 idStr, pyParseInt 10 mnStr, pyParseInt 10 mxStr,
        hexToRgb colorStr with
    | some i, some mn, some mx, some (r, g, b) =>
      if i < 0 then none
      else
        some { index := i - 1
               color := ((r : ℚ) / 255, (g : ℚ) / 255, (b : ℚ) / 255)
               min := (mn : ℚ) / 65535
               max := (mx : ℚ) / 65535 }
    | _, _, _, _ => none

instance {ε α : Type} [DecidableEq ε] [DecidableEq α] : DecidableEq (Except ε α) :=
  fun a b =>
    match a, b with
    | .ok x, .ok y => if h : x = y then isTrue (by rw [h]) else isFalse (by simp [h])
    | .error x, .error y => if h : x = y then isTrue (by rw [h]) else isFalse (by simp [h])
    | .ok _, .error _ => isFalse (by simp)
    | .error _, .ok _ => isFalse (by simp)

/-- A valid image uuid used by the concrete scenario requests. -/
def goodUuid : String := "00000000-0000-0000-0000-000000000000"

/-- Baseline concrete handler environment over natural-number pixel
values: both permission memoization layers empty and the database
granting access, no caches, every store read succeeds with the value
7, rendering primitives are simple arithmetic markers, the
optimum-level computation always fails (exercising the level-0
fallback), and the grid has the single cell (0, 0). -/
def baseEnv : ApiEnv Nat :=
  { permDict := none
    permRedisGet := none
    permDb := true
    rawCache := none
    preCache := none
    s3Get := fun _ => .ok 7
    zarrGet := fun _ _ _ _ _ _ => .ok 7
    decodeTiff := fun v => v + 1
    decodeImage := fun v => v + 2
    channelGroup := fun _ => []
    image := { filesetUuid := "fs1", pyramidLevels := 4 }
    fileset := { complete := true }
    imageShape := (2048, 2048)
    optimumLevel := fun _ _ _ _ => .error ()
    toLevel := fun p _ => p
    selectGrids := fun _ _ _ => [(0, 0)]
    compositeChannels := fun _ _ => 100
    compositeSubtiles := fun _ _ _ _ => 200
    scaleNearest := fun v _ => v + 10
    quantize := fun v => v * 2
    encodeJpg := fun v => v + 1000
    encodePng := fun v => v + 2000
    autoGaussian := fun v => (v, v + 1)
    autoHistogram := fun v => (v, v + 2) }

/-- Concrete region request with no output dimensions (so the max of
the empty list raises and level selection must fall back). -/
def c6Req : RegionReq :=
  { uuid := goodUuid
    x := 0, y := 0, width := 100, height := 100, z := 0, t := 0
    channelsPath := String.toList "0,ff0000,0,1"
    outputWidth := none
    outputHeight := none
    preferHigher := false }

/-- The baseline environment with a grid selector that yields only the
negative index pair, so every pair is skipped and the fetch list comes
out empty. -/
def c7NegEnv : ApiEnv Nat :=
  { baseEnv with selectGrids := fun _ _ _ => [(-1, -1)] }

/-- The grid-index predicate used to state the skip property: both
components non-negative. -/
def gridNonneg (ij : Int × Int) : Bool :=
  decide (0 ≤ ij.1) && decide (0 ≤ ij.2)

/-- Number of occurrences of a grid index pair in a list (stated with
a decidable-equality predicate to keep one notion of counting). -/
def occCount (l : List (Int × Int)) (x : Int × Int) : Nat :=
  l.countP (fun y => decide (y = x))

/-- The baseline environment with a fileset whose metadata extraction
has not completed. -/
def c9Env : ApiEnv Nat :=
  { baseEnv with fileset := { complete := false } }

/-- A region request with a malformed image uuid (used to show that
validation failures raise the same exception class). -/
def c9BadReq : RegionReq :=
  { c6Req with uuid := "not-a-uuid" }

/-- The baseline environment with the database denying permission and
both memoization layers empty, so the computed permission is false. -/
def deniedEnv : ApiEnv Nat :=
  { baseEnv with permDb := false }

/-- An environment in which the user has no permission (database says
no, and the denial was even cached) but the in-process dict misses, so
the check reads the cached denial back from Redis as the byte string
0, which the bool builtin coerces to True. -/
def c3RedisEnv : ApiEnv Nat :=
  { baseEnv with
    permDb := false
    permDict := none
    permRedisGet := some "0"
    rawCache := some (fun _ => none) }

/-- A render_tile warmup request with a valid uuid. -/
def warmupReq : RenderTileReq :=
  { uuid := goodUuid, x := 0, y := 0, z := 0, t := 0, level := 0
    warmup := true, gamma := none, channelsPath := String.toList "0,ff0000,0,1" }

/-- A concrete raw_tile request. -/
def rawReq0 : RawTileReq :=
  { uuid := goodUuid, x := 0, y := 0, z := 0, t := 0, level := 0, channel := 0 }

/-- An omero_render_tile request in which every channel id is
negative. -/
def omeroOffReq : OmeroTileReq :=
  { uuid := goodUuid, z := 0, t := 0
    tile := String.toList "0,0,0"
    c := String.toList "-1|0:65535$FF0000,-2|0:65535$00FF00" }

/-- What the permission gate guarantees on a denied request: an
AuthError outcome with no tile fetch and no cache write in the
trace. -/
def deniedOutcome {α : Type} (run : Except Err α × List Ev) : Prop :=
  run.1 = .error (.authError "Permission Denied") ∧
  Ev.tileFetch ∉ run.2 ∧ Ev.cacheWrite ∉ run.2

/-- Every tile fetch in the trace happens after a permission check:
if a fetch occurs at all, the trace splits at a permission check with
no fetch before it. -/
def permBeforeFetch (tr : List Ev) : Prop :=
  Ev.tileFetch ∈ tr →
    ∃ pre suf, tr = pre ++ Ev.permCheck :: suf ∧ Ev.tileFetch ∉ pre

/-! # Theorems settling the claims -/

/-- Monadic bind on handler steps in terms of M.bind. -/
theorem mBind_eq {α β : Type} (m : M α) (f : α → M β) : m >>= f = M.bind m f := rfl

/-- Monadic unit on handler steps. -/
theorem mPure_eq {α : Type} (a : α) : (pure a : M α) = (.ok a, []) := rfl

/-- On a strictly well-formed entry the handler parser agrees with the
spec-side decoding: a negative id yields no channel, a non-negative id
yields the converted channel. -/
theorem parseOmeroEntry_wf (entry : Str) (hwf : omeroEntryWF entry = true) :
    parseOmeroEntry entry = .ok (specOmeroChannel entry) := by
  rcases hbar : splitOnChar '|' entry with _ | ⟨idStr, _ | ⟨settings, _ | ⟨s2, srest⟩⟩⟩
  · simp only [omeroEntryWF, omeroEntryParts, hbar] at hwf
    exact absurd hwf (by decide)
  · simp only [omeroEntryWF, omeroEntryParts, hbar] at hwf
    exact absurd hwf (by decide)
  · rcases hdollar : splitOnChar '$' settings with _ | ⟨minmax, _ | ⟨colorStr, _ | ⟨d2, drest⟩⟩⟩
    · simp only [omeroEntryWF, omeroEntryParts, hbar, hdollar] at hwf
      exact absurd hwf (by decide)
    · simp only [omeroEntryWF, omeroEntryParts, hbar, hdollar] at hwf
      exact absurd hwf (by decide)
    · rcases hcolon : splitOnChar ':' minmax with _ | ⟨mnStr, _ | ⟨mxStr, _ | ⟨c2, crest⟩⟩⟩
      · simp only [omeroEntryWF, omeroEntryParts, hbar, hdollar, hcolon] at hwf
        exact absurd hwf (by decide)
      · simp only [omeroEntryWF, omeroEntryParts, hbar, hdollar, hcolon] at hwf
        exact absurd hwf (by decide)
      · simp only [omeroEntryWF, omeroEntryParts, hbar, hdollar, hcolon] at hwf
        simp only [parseOmeroEntry, specOmeroChannel, omeroEntryParts, hbar, hdollar, hcolon,
          List.headD, List.getElem?_cons_zero, List.getElem?_cons_succ]
        cases hid : pyParseInt 10 idStr with
        | none => rw [hid] at hwf; simp at hwf
        | some i =>
          rw [hid] at hwf
          by_cases hneg : i < 0
          · cases hmn2 : pyParseInt 10 mnStr with
            | none => simp [hneg, hmn2]
            | some mn =>
              cases hmx2 : pyParseInt 10 mxStr with
              | none => simp [hneg, hmn2, hmx2]
              | some mx =>
                cases hc2 : hexToRgb colorStr with
                | none => simp [hneg, hmn2, hmx2, hc2]
                | some rgb =>
                  obtain ⟨r, g, b⟩ := rgb
                  simp [hneg, hmn2, hmx2, hc2]
          · simp only [hneg, decide_False, Bool.false_or, Bool.and_eq_true,
              Option.isSome_iff_exists] at hwf
            obtain ⟨⟨⟨mn, hmn⟩, mx, hmx⟩, rgb, hrgb⟩ := hwf
            obtain ⟨r, g, b⟩ := rgb
            simp [hneg, hmn, hmx, hrgb]
      · simp only [omeroEntryWF, omeroEntryParts, hbar, hdollar, hcolon] at hwf
        exact absurd hwf (by decide)
    · simp only [omeroEntryWF, omeroEntryParts, hbar, hdollar] at hwf
      exact absurd hwf (by decide)
  · simp only [omeroEntryWF, omeroEntryParts, hbar] at hwf
    exact absurd hwf (by decide)

/-- C5: for every OMERO channel query string whose entries are
strictly well-formed, _parse_omero_channels filters out the entries
with negative ids and decodes each remaining entry into the Channel
record (the shape shared with the standard descriptor parser) with
0-based index id minus 1, bounds divided by 65535, and color bytes
divided by 255. -/
theorem c5_parse_omero_channels (c : Str)
    (hwf : ∀ e ∈ splitOnChar ',' c, omeroEntryWF e = true) :
    parseOmeroChannels c = .ok ((splitOnChar ',' c).filterMap specOmeroChannel) := by
  unfold parseOmeroChannels
  suffices h : ∀ (entries : List Str) (acc : List Channel),
      (∀ e ∈ entries, omeroEntryWF e = true) →
      parseOmeroChannelsAux entries acc = .ok (acc ++ entries.filterMap specOmeroChannel) by
    simpa using h (splitOnChar ',' c) [] hwf
  intro entries
  induction entries with
  | nil => intro acc _; simp [parseOmeroChannelsAux]
  | cons e rest ih =>
    intro acc hall
    have he := hall e (List.mem_cons_self e rest)
    have hrest : ∀ x ∈ rest, omeroEntryWF x = true :=
      fun x hx => hall x (List.mem_cons_of_mem e hx)
    rw [List.filterMap_cons]
    cases hs : specOmeroChannel e with
    | none =>
      have := parseOmeroEntry_wf e he
      rw [hs] at this
      simp only [parseOmeroChannelsAux, this, ih acc hrest]
    | some ch =>
      have := parseOmeroEntry_wf e he
      rw [hs] at this
      simp only [parseOmeroChannelsAux, this, ih (acc ++ [ch]) hrest]
      simp

/-- C5 witness: a three-entry query with one switched-off channel
decodes to the two expected channels. -/
theorem c5_parse_omero_channels_witness :
    (∀ e ∈ splitOnChar ',' (String.toList "1|0:65535$FF0000,-2|0:100$00FF00,3|13107:65535$0000FF"),
      omeroEntryWF e = true) ∧
    parseOmeroChannels (String.toList "1|0:65535$FF0000,-2|0:100$00FF00,3|13107:65535$0000FF") =
      .ok [{ index := 0, color := (1, 0, 0), min := 0, max := 1 },
           { index := 2, color := (0, 0, 1), min := 1/5, max := 1 }] := by
  refine ⟨by decide, ?_⟩
  rw [c5_parse_omero_channels _ (by decide)]
  have hsplit : splitOnChar ','
      (String.toList "1|0:65535$FF0000,-2|0:100$00FF00,3|13107:65535$0000FF") =
      [String.toList "1|0:65535$FF0000", String.toList "-2|0:100$00FF00",
       String.toList "3|13107:65535$0000FF"] := by decide
  rw [hsplit]
  have h1 : specOmeroChannel (String.toList "1|0:65535$FF0000") =
      some { index := 0, color := (1, 0, 0), min := 0, max := 1 } := by
    have hp : omeroEntryParts (String.toList "1|0:65535$FF0000") =
        some (String.toList "1", String.toList "0", String.toList "65535",
          String.toList "FF0000") := by decide
    have hid : pyParseInt 10 (String.toList "1") = some 1 := by decide
    have hmn : pyParseInt 10 (String.toList "0") = some 0 := by decide
    have hmx : pyParseInt 10 (String.toList "65535") = some 65535 := by decide
    have hc : hexToRgb (String.toList "FF0000") = some (255, 0, 0) := by decide
    simp only [specOmeroChannel, hp, hid, hmn, hmx, hc]
    norm_num [Channel.mk.injEq, Prod.mk.injEq]
  have h2 : specOmeroChannel (String.toList "-2|0:100$00FF00") = none := by
    have hp : omeroEntryParts (String.toList "-2|0:100$00FF00") =
        some (String.toList "-2", String.toList "0", String.toList "100",
          String.toList "00FF00") := by decide
    have hid : pyParseInt 10 (String.toList "-2") = some (-2) := by decide
    have hmn : pyParseInt 10 (String.toList "0") = some 0 := by decide
    have hmx : pyParseInt 10 (String.toList "100") = some 100 := by decide
    have hc : hexToRgb (String.toList "00FF00") = some (0, 255, 0) := by decide
    simp only [specOmeroChannel, hp, hid, hmn, hmx, hc]
    norm_num
  have h3 : specOmeroChannel (String.toList "3|13107:65535$0000FF") =
      some { index := 2, color := (0, 0, 1), min := 1/5, max := 1 } := by
    have hp : omeroEntryParts (String.toList "3|13107:65535$0000FF") =
        some (String.toList "3", String.toList "13107", String.toList "65535",
          String.toList "0000FF") := by decide
    have hid : pyParseInt 10 (String.toList "3") = some 3 := by decide
    have hmn : pyParseInt 10 (String.toList "13107") = some 13107 := by decide
    have hmx : pyParseInt 10 (String.toList "65535") = some 65535 := by decide
    have hc : hexToRgb (String.toList "0000FF") = some (0, 0, 255) := by decide
    simp only [specOmeroChannel, hp, hid, hmn, hmx, hc]
    norm_num [Channel.mk.injEq, Prod.mk.injEq]
  rw [List.filterMap_cons, List.filterMap_cons, List.filterMap_cons, h1, h2, h3]
  simp

/-- C1: the S3 object key computed by S3TileProvider.get_tile for the
tiff format is exactly the raw-tile storage key template of the spec
with extension tif, and the prerendered-tile cache key computed by the
Handler cache accessors is exactly the prerendered-tile cache key
template of the spec. -/
theorem c1_storage_key_formats (uuid cg : String) (x y z t c level : Int) :
    tileKey uuid x y z t (toString c) level "tiff" =
      specRawTileKey uuid (toString c) (toString t) (toString z) (toString level)
        (toString y) (toString x) "tif" ∧
    prerenderedTileKey uuid x y z t level cg =
      specPrerenderedKey uuid (toString t) (toString z) (toString level) (toString y)
        (toString x) cg := by
  constructor
  · simp [tileKey, specRawTileKey, tileFileExt, String.append_assoc]
  · simp [prerenderedTileKey, specPrerenderedKey, String.append_assoc]

/-- C2: when the cache misses and the object store raises a
ClientError, get_tile invokes the missing-tile callback with the
requested coordinates exactly when the error code is NoSuchKey and a
callback is configured (a TileBoundError raised by the callback
propagates, and a normally returning callback yields the implicit
None); otherwise the ClientError propagates unmodified; and in every
such error case no cache write is performed. -/
theorem c2_get_tile_client_error {V : Type} (env : TileEnv V) (uuid : String)
    (x y z t : Int) (c : String) (level : Int) (format : String) (e : ClientErr)
    (hmiss : tileCacheLookup env (tileKey uuid x y z t c level format) = none)
    (hfetch : tileStoreFetch env x y z t c level format
      (tileKey uuid x y z t c level format) = .error e) :
    (∀ cb, env.callback = some cb → e.code = "NoSuchKey" →
      getTile env uuid x y z t c level format =
        ⟨match cb uuid x y z t c level with
          | .ok _ => .ok none
          | .error msg => .error (.tileBound msg), []⟩) ∧
    (env.callback = none →
      getTile env uuid x y z t c level format = ⟨.error (.clientError e.code), []⟩) ∧
    (e.code ≠ "NoSuchKey" →
      getTile env uuid x y z t c level format = ⟨.error (.clientError e.code), []⟩) ∧
    (getTile env uuid x y z t c level format).cacheWrites = [] := by
  refine ⟨?_, ?_, ?_, ?_⟩
  · intro cb hcb hcode
    simp only [getTile, hmiss, hfetch, hcb, hcode, if_true]
    cases cb uuid x y z t c level <;> rfl
  · intro hcb
    simp only [getTile, hmiss, hfetch, hcb]
  · intro hcode
    simp only [getTile, hmiss, hfetch]
    cases hcb : env.callback with
    | none => rfl
    | some cb => simp only [if_neg hcode]
  · simp only [getTile, hmiss, hfetch]
    cases hcb : env.callback with
    | none => rfl
    | some cb =>
      by_cases hcode : e.code = "NoSuchKey"
      · simp only [if_pos hcode]
        cases cb uuid x y z t c level <;> rfl
      · simp only [if_neg hcode]

/-- C2 witness: in the concrete environment c2Env every store read
reports NoSuchKey, the configured handle_missing_tile callback raises,
and get_tile therefore returns that TileBoundError with no cache
write. -/
theorem c2_get_tile_client_error_witness :
    tileCacheLookup c2Env (tileKey "u" 1 2 3 4 "5" 6 "tiff") = none ∧
    tileStoreFetch c2Env 1 2 3 4 "5" 6 "tiff" (tileKey "u" 1 2 3 4 "5" 6 "tiff") =
      .error ⟨"NoSuchKey"⟩ ∧
    getTile c2Env "u" 1 2 3 4 "5" 6 "tiff" =
      ⟨.error (.tileBound (missingTileMsg "u" 1 2 3 4 "5" 6)), []⟩ := by
  refine ⟨rfl, rfl, ?_⟩
  have h := (c2_get_tile_client_error c2Env "u" 1 2 3 4 "5" 6 "tiff" ⟨"NoSuchKey"⟩
    rfl rfl).1 handleMissingTile rfl rfl
  exact h

/-- C8 counterexample: in c8HitEnv the cache hit with value 5 is
returned without decoding although the decoder maps 5 to 6, and in
c8MissEnv the value written through to the cache is the decoded 11,
not the raw fetched 10 — both contrary to the claim, which predicts a
decoded hit and a raw write-through. -/
theorem c8_counterexample :
    (getTile c8HitEnv "u" 0 0 0 0 "0" 0 "tiff").result = .ok (some 5) ∧
    c8HitEnv.decodeTiff 5 = 6 ∧
    tileCacheLookup c8HitEnv (tileKey "u" 0 0 0 0 "0" 0 "tiff") = some 5 ∧
    c8HitEnv.cacheGet.isSome = true ∧
    decide ((5 : Nat) = 6) = false ∧
    (getTile c8MissEnv "u" 0 0 0 0 "0" 0 "tiff").cacheWrites =
      [(tileKey "u" 0 0 0 0 "0" 0 "tiff", 11)] ∧
    c8MissEnv.s3Get (tileKey "u" 0 0 0 0 "0" 0 "tiff") = .ok 10 ∧
    decide ((11 : Nat) = 10) = false :=
  ⟨rfl, rfl, rfl, rfl, rfl, rfl, rfl, rfl⟩

/-- C8 amended: on a cache hit get_tile returns the cached value
as-is with no cache write, and on a cache miss with a successful store
read it returns the decoded raster and writes that decoded raster (not
the raw bytes) through to the cache exactly when a cache client is
configured. -/
theorem c8_cache_semantics {V : Type} (env : TileEnv V) (uuid : String)
    (x y z t : Int) (c : String) (level : Int) (format : String)
    (hz : format ≠ "zarr") :
    (∀ v, tileCacheLookup env (tileKey uuid x y z t c level format) = some v →
      getTile env uuid x y z t c level format = ⟨.ok (some v), []⟩) ∧
    (∀ data, tileCacheLookup env (tileKey uuid x y z t c level format) = none →
      env.s3Get (tileKey uuid x y z t c level format) = .ok data →
      getTile env uuid x y z t c level format =
        ⟨.ok (some (if format = "tiff" then env.decodeTiff data else env.decodeImage data)),
          if env.cacheGet.isSome then
            [(tileKey uuid x y z t c level format,
              if format = "tiff" then env.decodeTiff data else env.decodeImage data)]
          else []⟩) := by
  constructor
  · intro v hv
    simp only [getTile, hv]
  · intro data hmiss hget
    simp only [getTile, hmiss, tileStoreFetch, if_neg hz, hget]

/-- C8 amended witness: in c8HitEnv the hit returns the cached 5
unchanged, and in c8MissEnv the decoded 11 is both returned and
written through. -/
theorem c8_cache_semantics_witness :
    tileCacheLookup c8HitEnv (tileKey "u" 0 0 0 0 "0" 0 "tiff") = some 5 ∧
    getTile c8HitEnv "u" 0 0 0 0 "0" 0 "tiff" = ⟨.ok (some 5), []⟩ ∧
    getTile c8MissEnv "u" 0 0 0 0 "0" 0 "tiff" =
      ⟨.ok (some 11), [(tileKey "u" 0 0 0 0 "0" 0 "tiff", 11)]⟩ := by
  refine ⟨rfl, ?_, ?_⟩
  · exact (c8_cache_semantics c8HitEnv "u" 0 0 0 0 "0" 0 "tiff" (by decide)).1 5 rfl
  · have h := (c8_cache_semantics c8MissEnv "u" 0 0 0 0 "0" 0 "tiff" (by decide)).2 10 rfl rfl
    exact h

/-- C4 counterexample: the descriptor a,ff0000,0,1 has exactly four
fields and a six-hex-digit color, so the claim predicts success, yet
parsing fails because the index field does not convert to an integer;
and the descriptor 0,+f0000,0,1 has a color that is not six hex
digits, so the claim predicts failure, yet parsing succeeds because
each two-character group is accepted by the base-16 int builtin. -/
theorem c4_counterexample :
    isOkB (parseChannelParams (String.toList "a,ff0000,0,1")) = false ∧
    c4ErrClaimed (String.toList "a,ff0000,0,1") = false ∧
    isOkB (parseChannelParams (String.toList "0,+f0000,0,1")) = true ∧
    c4ErrClaimed (String.toList "0,+f0000,0,1") = true := by
  decide

/-- C4 amended: parsing a channel descriptor fails exactly when it
does not split on commas into exactly four fields, or the index field
fails integer conversion, or the color field is rejected by
_hex_to_rgb (six characters whose two-character groups each pass
base-16 integer conversion), or either bound fails float conversion;
on success the channel has the integer index, the three decoded color
values each divided by 255, and the two float bounds. -/
theorem c4_parse_channel (s : Str) :
    isOkB (parseChannelParams s) = !(c4ErrAmended s) ∧
    (∀ p0 p1 p2 p3 idx r g b mn mx,
      splitOnChar ',' s = [p0, p1, p2, p3] →
      pyParseInt 10 p0 = some idx →
      hexToRgb p1 = some (r, g, b) →
      pyParseFloat p2 = some mn →
      pyParseFloat p3 = some mx →
      parseChannelParams s = .ok
        { index := idx
          color := ((r : ℚ) / 255, (g : ℚ) / 255, (b : ℚ) / 255)
          min := mn
          max := mx }) := by
  constructor
  · rcases hl : splitOnChar ',' s with _ | ⟨p0, _ | ⟨p1, _ | ⟨p2, _ | ⟨p3, _ | ⟨p4, rest⟩⟩⟩⟩⟩ <;>
      simp only [parseChannelParams, c4ErrAmended, hl, isOkB, Bool.not_true]
    cases hp0 : pyParseInt 10 p0 with
    | none => simp [hp0, isOkB]
    | some idx =>
      cases hh : hexToRgb p1 with
      | none => simp [hp0, hh, isOkB]
      | some rgb =>
        obtain ⟨r, g, b⟩ := rgb
        cases hm2 : pyParseFloat p2 with
        | none => simp [hp0, hh, hm2, isOkB]
        | some mn =>
          cases hm3 : pyParseFloat p3 with
          | none => simp [hp0, hh, hm2, hm3, isOkB]
          | some mx => simp [hp0, hh, hm2, hm3, isOkB]
  · intro p0 p1 p2 p3 idx r g b mn mx hl hp0 hh hm2 hm3
    simp only [parseChannelParams, hl, hp0, hh, hm2, hm3]

/-- C4 amended witness: the descriptor 0,ff0000,0.5,1 parses to the
channel with index 0, pure red color, and bounds one half and one. -/
theorem c4_parse_channel_witness :
    splitOnChar ',' (String.toList "0,ff0000,0.5,1") =
      [String.toList "0", String.toList "ff0000", String.toList "0.5", String.toList "1"] ∧
    parseChannelParams (String.toList "0,ff0000,0.5,1") =
      .ok { index := 0, color := (1, 0, 0), min := 1/2, max := 1 } := by
  refine ⟨by decide, ?_⟩
  have h := (c4_parse_channel (String.toList "0,ff0000,0.5,1")).2
    (String.toList "0") (String.toList "ff0000") (String.toList "0.5") (String.toList "1")
    0 255 0 0 (1/2) 1 (by decide) (by decide) (by decide)
    (by simp [pyParseFloat, parseMantissa, digitsToNat, List.takeWhile, List.dropWhile]
        norm_num)
    (by simp [pyParseFloat, parseMantissa, digitsToNat, List.takeWhile, List.dropWhile])
  rw [h]
  norm_num [Channel.mk.injEq, Prod.mk.injEq]

/-- C6: when pyramid level selection fails — either no output
dimension is supplied, so the max of the empty list raises, or
get_optimum_pyramid_level raises a ValueError — render_region does not
reject the request: the level defaults to 0 and the request behaves
exactly as if the selector had returned level 0. -/
theorem c6_level_fallback {V : Type} (env : ApiEnv V) (req : RegionReq)
    (hsel : ∀ m, outputMaxOf req.outputHeight req.outputWidth = some m →
      env.optimumLevel env.imageShape env.image.pyramidLevels m req.preferHigher = .error ()) :
    chooseLevel env req.outputHeight req.outputWidth req.preferHigher = 0 ∧
    renderRegion env req =
      renderRegion { env with optimumLevel := fun _ _ _ _ => .ok 0 } req := by
  have h1 : chooseLevel env req.outputHeight req.outputWidth req.preferHigher = 0 := by
    cases ho : outputMaxOf req.outputHeight req.outputWidth with
    | none => simp [chooseLevel, ho]
    | some m => simp [chooseLevel, ho, hsel m ho]
  have h2 : chooseLevel { env with optimumLevel := fun _ _ _ _ => .ok 0 }
      req.outputHeight req.outputWidth req.preferHigher = 0 := by
    cases ho : outputMaxOf req.outputHeight req.outputWidth with
    | none => simp [chooseLevel, ho]
    | some m => simp [chooseLevel, ho]
  refine ⟨h1, ?_⟩
  simp only [renderRegion, h1, h2, hasImagePermissionM, ApiEnv.tileEnv,
    ApiEnv.permitted, permLookup]

/-- C6 witness: in the baseline environment, whose selector always
fails, the request with no output dimensions falls back to level 0 and
renders successfully. -/
theorem c6_level_fallback_witness :
    chooseLevel baseEnv c6Req.outputHeight c6Req.outputWidth c6Req.preferHigher = 0 ∧
    (renderRegion baseEnv c6Req).1 = .ok (Out.bytes 1400) := by
  constructor
  · exact (c6_level_fallback baseEnv c6Req (fun m h => by simp [outputMaxOf, c6Req] at h)).1
  · decide

/-- Entries mapped to none can be filtered away before a filterMap. -/
theorem filterMap_skip_filter {α β : Type} (f : α → Option β) (p : α → Bool)
    (h : ∀ a, p a = false → f a = none) :
    ∀ l : List α, l.filterMap f = (l.filter p).filterMap f := by
  intro l
  induction l with
  | nil => rfl
  | cons a rest ih =>
    cases hp : p a with
    | true => simp [List.filter_cons, hp, List.filterMap_cons, ih]
    | false => simp [List.filter_cons, hp, List.filterMap_cons, h a hp, ih]

/-- Occurrence count over a cons cell. -/
theorem occCount_cons (a : Int × Int) (l : List (Int × Int)) (x : Int × Int) :
    occCount (a :: l) x = occCount l x + (if a = x then 1 else 0) := by
  simp [occCount, List.countP_cons]

/-- A pair absent from the list occurs zero times. -/
theorem occCount_eq_zero {x : Int × Int} {l : List (Int × Int)} (h : x ∉ l) :
    occCount l x = 0 := by
  induction l with
  | nil => rfl
  | cons a rest ih =>
    rw [occCount_cons]
    have hax : ¬ (a = x) := fun hc => h (hc ▸ List.mem_cons_self a rest)
    have hrest : x ∉ rest := fun hc => h (List.mem_cons_of_mem a hc)
    simp [ih hrest, hax]

/-- In a duplicate-free list a member occurs exactly once. -/
theorem occCount_nodup {x : Int × Int} {l : List (Int × Int)} (h : l.Nodup)
    (hm : x ∈ l) : occCount l x = 1 := by
  induction l with
  | nil => cases hm
  | cons a rest ih =>
    rw [occCount_cons]
    rcases List.mem_cons.mp hm with rfl | hmem
    · have hnr : x ∉ rest := (List.nodup_cons.mp h).1
      simp [occCount_eq_zero hnr]
    · have hne : ¬ (a = x) := by
        intro hax
        exact (List.nodup_cons.mp h).1 (hax ▸ hmem)
      simp [ih (List.nodup_cons.mp h).2 hmem, hne]

/-- Fetch-argument count contributed by a single channel: one per
occurrence of the grid pair when the channel index matches, none
otherwise. -/
theorem regionInnerCount (uuid : String) (z t level : Int) (ch : Channel)
    (grids : List (Int × Int)) (cIdx i j : Int) (hi : 0 ≤ i) (hj : 0 ≤ j) :
    ((grids.filterMap (fun ij =>
        if ij.1 < 0 ∨ ij.2 < 0 then none
        else some ((⟨uuid, ij.2, ij.1, z, t, ch.index, level⟩ : FetchArg),
                   (⟨ij, ch.color, ch.min, ch.max⟩ : SubTileMeta)))).map Prod.fst).count
      ⟨uuid, j, i, z, t, cIdx, level⟩ =
      if ch.index = cIdx then occCount grids (i, j) else 0 := by
  induction grids with
  | nil => simp [occCount]
  | cons ij rest ih =>
    by_cases hneg : ij.1 < 0 ∨ ij.2 < 0
    · have hne : ¬ (ij = (i, j)) := by
        intro hcon
        rcases hneg with hn | hn
        · rw [hcon] at hn; omega
        · rw [hcon] at hn; omega
      have hfa : (fun ij : Int × Int =>
          if ij.1 < 0 ∨ ij.2 < 0 then none
          else some ((⟨uuid, ij.2, ij.1, z, t, ch.index, level⟩ : FetchArg),
                     (⟨ij, ch.color, ch.min, ch.max⟩ : SubTileMeta))) ij = none := by
        simp [hneg]
      simp only [List.filterMap_cons, hfa, ih, occCount_cons]
      simp [hne]
    · have hfa : (fun ij : Int × Int =>
          if ij.1 < 0 ∨ ij.2 < 0 then none
          else some ((⟨uuid, ij.2, ij.1, z, t, ch.index, level⟩ : FetchArg),
                     (⟨ij, ch.color, ch.min, ch.max⟩ : SubTileMeta))) ij =
          some ((⟨uuid, ij.2, ij.1, z, t, ch.index, level⟩ : FetchArg),
                (⟨ij, ch.color, ch.min, ch.max⟩ : SubTileMeta)) := by
        simp [hneg]
      simp only [List.filterMap_cons, hfa, List.map_cons, List.count_cons, ih, occCount_cons]
      have hsplit : ((⟨uuid, ij.2, ij.1, z, t, ch.index, level⟩ : FetchArg) =
          ⟨uuid, j, i, z, t, cIdx, level⟩) ↔ (ij = (i, j) ∧ ch.index = cIdx) := by
        constructor
        · intro hcon
          injection hcon with h1 h2 h3 h4 h5 h6 h7
          exact ⟨Prod.ext h3 h2, h6⟩
        · intro hcon
          rw [hcon.2, hcon.1]
      by_cases hix : ch.index = cIdx
      · by_cases hij : ij = (i, j)
        · simp [hix, hij, hsplit]
        · simp [hix, hij, hsplit]
          intro h2 h1
          exact hij (Prod.ext h1 h2)
      · have hnearg : ¬ ((⟨uuid, ij.2, ij.1, z, t, ch.index, level⟩ : FetchArg) =
            ⟨uuid, j, i, z, t, cIdx, level⟩) := by
          rw [hsplit]; exact fun hcon => hix hcon.2
        simp [hix, hnearg]

/-- Fetch-argument count over the whole channel loop. -/
theorem regionPairsCount (uuid : String) (z t level : Int) (channels : List Channel)
    (grids : List (Int × Int)) (cIdx i j : Int) (hi : 0 ≤ i) (hj : 0 ≤ j) :
    ((regionPairs uuid z t level channels grids).map Prod.fst).count
      ⟨uuid, j, i, z, t, cIdx, level⟩ =
      (channels.countP (fun ch => ch.index == cIdx)) * occCount grids (i, j) := by
  induction channels with
  | nil => simp [regionPairs]
  | cons ch rest ih =>
    rw [regionPairs] at ih ⊢
    rw [List.flatMap_cons, List.map_append, List.count_append]
    have h1 := regionInnerCount uuid z t level ch grids cIdx i j hi hj
    rw [h1, ih]
    rw [List.countP_cons]
    by_cases hix : ch.index = cIdx
    · simp [hix]; ring
    · simp [hix]

/-- countP on the channel list equals the count of the index in the
mapped index list. -/
theorem countP_index_eq (channels : List Channel) (a : Int) :
    channels.countP (fun c => c.index == a) =
      (channels.map Channel.index).count a := by
  induction channels with
  | nil => rfl
  | cons c rest ih => simp [List.countP_cons, List.count_cons, ih]

/-- C7 counterexample: with every produced grid index negative the
fetch list is empty; ThreadPool(0) raises a ValueError inside the try
block before the local pool name is bound, and the finally-block
pool.close() masks it with an UnboundLocalError, so the request fails
with a 500-class exception and no fetch is attempted, while the
identical environment whose selector yields the cell (0, 0)
succeeds — contrary to the claim that the request completes without
raising on account of skipped indices. -/
theorem c7_counterexample :
    c7NegEnv.selectGrids (1024, 1024) (0, 0) (100, 100) = [(-1, -1)] ∧
    (renderRegion c7NegEnv c6Req).1 = .error (.other poolUnboundMsg) ∧
    statusOf (.other poolUnboundMsg) = 500 ∧
    decide (Ev.tileFetch ∈ (renderRegion c7NegEnv c6Req).2) = false ∧
    (renderRegion baseEnv c6Req).1 = .ok (Out.bytes 1400) := by
  refine ⟨rfl, by decide, rfl, by decide, by decide⟩

/-- C7 amended: the render_region fetch loop skips exactly the grid
index pairs with a negative component — the request behaves exactly as
if those pairs were absent (in particular only the case where no pair
remains fails, with the masked pool failure shown in the
counterexample); no fetch argument carries a negative coordinate; and
when channel indices and grid pairs are free of duplicates every
remaining (grid cell, channel) pair is fetched exactly once. -/
theorem c7_region_grid :
    (∀ (uuid : String) (z t level : Int) (channels : List Channel)
        (grids : List (Int × Int)),
      regionPairs uuid z t level channels grids =
        regionPairs uuid z t level channels (grids.filter gridNonneg)) ∧
    (∀ (uuid : String) (z t level : Int) (channels : List Channel)
        (grids : List (Int × Int)) (p : FetchArg × SubTileMeta),
      p ∈ regionPairs uuid z t level channels grids → 0 ≤ p.1.y ∧ 0 ≤ p.1.x) ∧
    (∀ (uuid : String) (z t level : Int) (channels : List Channel)
        (grids : List (Int × Int)) (ch : Channel) (i j : Int),
      (channels.map Channel.index).Nodup → grids.Nodup →
      ch ∈ channels → (i, j) ∈ grids → 0 ≤ i → 0 ≤ j →
      ((regionPairs uuid z t level channels grids).map Prod.fst).count
        ⟨uuid, j, i, z, t, ch.index, level⟩ = 1) ∧
    (∀ (V : Type) (env : ApiEnv V) (req : RegionReq),
      renderRegion env req =
        renderRegion { env with
          selectGrids := fun ts o s => (env.selectGrids ts o s).filter gridNonneg } req) := by
  have hskip : ∀ (uuid : String) (z t level : Int) (channels : List Channel)
      (grids : List (Int × Int)),
      regionPairs uuid z t level channels grids =
        regionPairs uuid z t level channels (grids.filter gridNonneg) := by
    intro uuid z t level channels grids
    unfold regionPairs
    have h : ∀ ch : Channel, ∀ a : Int × Int, gridNonneg a = false →
        (if a.1 < 0 ∨ a.2 < 0 then none
         else some ((⟨uuid, a.2, a.1, z, t, ch.index, level⟩ : FetchArg),
                    (⟨a, ch.color, ch.min, ch.max⟩ : SubTileMeta))) = none := by
      intro ch a ha
      simp only [gridNonneg, Bool.and_eq_false_iff, decide_eq_false_iff_not, not_le] at ha
      have : a.1 < 0 ∨ a.2 < 0 := by omega
      simp [this]
    have hfm := fun ch : Channel =>
      filterMap_skip_filter _ gridNonneg (h ch) grids
    simp only [hfm]
  refine ⟨hskip, ?_, ?_, ?_⟩
  · intro uuid z t level channels grids p hp
    unfold regionPairs at hp
    rw [List.mem_flatMap] at hp
    obtain ⟨ch, _, hinner⟩ := hp
    rw [List.mem_filterMap] at hinner
    obtain ⟨ij, _, hij⟩ := hinner
    by_cases hneg : ij.1 < 0 ∨ ij.2 < 0
    · simp [hneg] at hij
    · push_neg at hneg
      simp only [if_neg (by omega : ¬ (ij.1 < 0 ∨ ij.2 < 0))] at hij
      obtain rfl := Option.some.inj hij
      exact ⟨hneg.1, hneg.2⟩
  · intro uuid z t level channels grids ch i j hnodupC hnodupG hch hij hi hj
    rw [regionPairsCount uuid z t level channels grids ch.index i j hi hj]
    have hcpt : channels.countP (fun c => c.index == ch.index) = 1 := by
      rw [countP_index_eq]
      exact List.count_eq_one_of_mem hnodupC (List.mem_map_of_mem Channel.index hch)
    have hgc : occCount grids (i, j) = 1 := occCount_nodup hnodupG hij
    rw [hcpt, hgc]
  · intro V env req
    have ha : ∀ (lvl : Int) (channels : List Channel) (g : List (Int × Int)),
        regionPairs req.uuid req.z req.t lvl channels (List.filter gridNonneg g) =
          regionPairs req.uuid req.z req.t lvl channels g :=
      fun lvl chs g => (hskip req.uuid req.z req.t lvl chs g).symm
    simp only [renderRegion, ApiEnv.tileEnv, hasImagePermissionM, chooseLevel,
      ApiEnv.permitted, permLookup, ha]

/-- C7 amended witness: one channel of index 0 over the grid pairs
(0, 0) and (-1, -1): the pair list ignores the negative pair, contains
no negative coordinate, and fetches the cell (0, 0) exactly once. -/
theorem c7_region_grid_witness :
    regionPairs "u" 0 0 0
        [{ index := 0, color := (1, 0, 0), min := 0, max := 1 }] [(0, 0), (-1, -1)] =
      regionPairs "u" 0 0 0
        [{ index := 0, color := (1, 0, 0), min := 0, max := 1 }]
        ([(0, 0), (-1, -1)].filter gridNonneg) ∧
    ((regionPairs "u" 0 0 0
        [{ index := 0, color := (1, 0, 0), min := 0, max := 1 }]
        [(0, 0), (-1, -1)]).map Prod.fst).count ⟨"u", 0, 0, 0, 0, 0, 0⟩ = 1 := by
  constructor
  · exact c7_region_grid.1 "u" 0 0 0
      [{ index := 0, color := (1, 0, 0), min := 0, max := 1 }] [(0, 0), (-1, -1)]
  · exact c7_region_grid.2.2.1 "u" 0 0 0
      [{ index := 0, color := (1, 0, 0), min := 0, max := 1 }] [(0, 0), (-1, -1)]
      { index := 0, color := (1, 0, 0), min := 0, max := 1 } 0 0
      (by simp) (by decide) (by simp) (by decide) le_rfl le_rfl

/-- C9 counterexample: a render_region request against an incomplete
fileset fails with the builtin ValueError — mapped to 422 — which is
exactly the exception class and status used for validation failures
(shown on the same endpoint with a malformed uuid); no distinct
NotReadyError class exists in the code. -/
theorem c9_counterexample :
    c9Env.fileset.complete = false ∧
    (renderRegion c9Env c6Req).1 =
      .error (.valueError "Fileset has not had metadata extracted yet: fs1") ∧
    statusOf (.valueError "Fileset has not had metadata extracted yet: fs1") = 422 ∧
    (renderRegion c9Env c9BadReq).1 = .error (.valueError uuidErrMsg) ∧
    statusOf (.valueError uuidErrMsg) = 422 := by
  refine ⟨rfl, by decide, rfl, by decide, rfl⟩

/-- C9 amended: for every render_region request that passes
validation and authorization and whose referenced fileset is not
marked complete, the request fails with the ValueError naming the
fileset — the same class as validation errors, mapped to 422 — and no
tile fetch or cache write is performed. -/
theorem c9_not_ready {V : Type} (env : ApiEnv V) (req : RegionReq) (chs : List Channel)
    (hv : validUuid req.uuid = true) (hp : env.permitted = true)
    (hch : parseChannelList (splitOnChar '/' req.channelsPath) = .ok chs)
    (hc : env.fileset.complete = false) :
    renderRegion env req =
      (.error (.valueError ("Fileset has not had metadata extracted yet: " ++
          env.image.filesetUuid)),
        [.validate, .permCheck, .dbQuery, .dbQuery]) ∧
    statusOf (.valueError ("Fileset has not had metadata extracted yet: " ++
      env.image.filesetUuid)) = 422 ∧
    Ev.tileFetch ∉ (renderRegion env req).2 ∧
    Ev.cacheWrite ∉ (renderRegion env req).2 := by
  have h : renderRegion env req =
      (.error (.valueError ("Fileset has not had metadata extracted yet: " ++
          env.image.filesetUuid)),
        [.validate, .permCheck, .dbQuery, .dbQuery]) := by
    simp only [renderRegion, validateUuidM, hasImagePermissionM, emit, throwE, liftE,
      mBind_eq, mPure_eq, M.bind, hv, hp, hch, hc, if_true, Bool.false_eq_true, if_false,
      List.append_nil, List.nil_append, List.cons_append]
  refine ⟨h, rfl, ?_, ?_⟩ <;> rw [h] <;> simp

/-- C9 amended witness: the concrete incomplete-fileset environment
fails with the ValueError naming fileset fs1 after exactly the
validation, permission and two database steps. -/
theorem c9_not_ready_witness :
    renderRegion c9Env c6Req =
      (.error (.valueError "Fileset has not had metadata extracted yet: fs1"),
        [.validate, .permCheck, .dbQuery, .dbQuery]) := by
  have h := c9_not_ready c9Env c6Req
    [{ index := 0, color := (1, 0, 0), min := 0, max := 1 }]
    (by decide) rfl (by
      have hs : splitOnChar '/' c6Req.channelsPath = [String.toList "0,ff0000,0,1"] := by
        decide
      rw [hs]
      simp only [parseChannelList, parseChannelListAux]
      have hp := (c4_parse_channel (String.toList "0,ff0000,0,1")).2
        (String.toList "0") (String.toList "ff0000") (String.toList "0") (String.toList "1")
        0 255 0 0 0 1 (by decide) (by decide) (by decide)
        (by simp [pyParseFloat, parseMantissa, digitsToNat, List.takeWhile, List.dropWhile])
        (by simp [pyParseFloat, parseMantissa, digitsToNat, List.takeWhile, List.dropWhile])
      rw [hp]
      norm_num [Channel.mk.injEq, Prod.mk.injEq]) rfl
  exact h.1

/-- All OMERO channel entries with negative ids parse to the empty
channel list. -/
theorem parseOmeroChannels_all_neg (c : Str)
    (hneg : ∀ e ∈ splitOnChar ',' c, ∃ i : Int,
      pyParseInt 10 ((splitOnChar '|' e).headD []) = some i ∧ i < 0) :
    parseOmeroChannels c = .ok [] := by
  unfold parseOmeroChannels
  suffices h : ∀ (entries : List Str) (acc : List Channel),
      (∀ e ∈ entries, ∃ i : Int,
        pyParseInt 10 ((splitOnChar '|' e).headD []) = some i ∧ i < 0) →
      parseOmeroChannelsAux entries acc = .ok acc from
    h (splitOnChar ',' c) [] hneg
  intro entries
  induction entries with
  | nil => intro acc _; rfl
  | cons e rest ih =>
    intro acc hall
    obtain ⟨i, hpi, hi⟩ := hall e (List.mem_cons_self e rest)
    have hentry : parseOmeroEntry e = .ok none := by
      simp only [parseOmeroEntry, hpi]
      simp [hi]
    simp only [parseOmeroChannelsAux, hentry]
    exact ih acc (fun x hx => hall x (List.mem_cons_of_mem e hx))

/-- C10: an omero_render_tile request that passes validation and
authorization, whose tile parameter parses, and whose channel query
consists only of negative (switched-off) ids performs no tile fetch
and no composite: it returns the one-by-one three-channel all-zero
8-bit raster as a success, with a trace containing only the
validation and permission steps. -/
theorem c10_omero_all_off {V : Type} (env : ApiEnv V) (req : OmeroTileReq)
    (lxy : Int × Int × Int)
    (hv : validUuid req.uuid = true) (hp : env.permitted = true)
    (ht : parseOmeroTile req.tile = .ok lxy)
    (hneg : ∀ e ∈ splitOnChar ',' req.c, ∃ i : Int,
      pyParseInt 10 ((splitOnChar '|' e).headD []) = some i ∧ i < 0) :
    omeroRenderTile env req = (.ok (Out.zeros 1 1 3), [.validate, .permCheck]) := by
  have hchan := parseOmeroChannels_all_neg req.c hneg
  simp only [omeroRenderTile, validateUuidM, hasImagePermissionM, emit, throwE, liftE,
    mBind_eq, mPure_eq, M.bind, hv, hp, ht, hchan, if_true, List.isEmpty_nil,
    List.append_nil, List.nil_append, List.cons_append]

/-- C10 witness: a request whose two channel entries have ids -1 and
-2 returns the zero raster with no fetch. -/
theorem c10_omero_all_off_witness :
    omeroRenderTile baseEnv omeroOffReq = (.ok (Out.zeros 1 1 3), [.validate, .permCheck]) := by
  refine c10_omero_all_off baseEnv omeroOffReq (0, 0, 0) (by decide) rfl (by decide) ?_
  intro e he
  have hs : splitOnChar ',' omeroOffReq.c =
      [String.toList "-1|0:65535$FF0000", String.toList "-2|0:65535$00FF00"] := by decide
  rw [hs] at he
  simp only [List.mem_cons, List.not_mem_nil, or_false] at he
  rcases he with rfl | rfl
  · exact ⟨-1, by decide, by decide⟩
  · exact ⟨-2, by decide, by decide⟩

/-- The shared validate-then-authorize prefix of every handler, fully
evaluated over the three request outcomes. -/
theorem gateBind_eq {V α : Type} (env : ApiEnv V) (u : String) (k : Unit → M α) :
    (validateUuidM u >>= fun _ => hasImagePermissionM env >>= k) =
      (if validUuid u then
        (if env.permitted then ((k ()).1, Ev.validate :: Ev.permCheck :: (k ()).2)
         else (.error (.authError "Permission Denied"), [Ev.validate, Ev.permCheck]))
       else (.error (.valueError uuidErrMsg), [Ev.validate])) := by
  by_cases hv : validUuid u <;> by_cases hp : env.permitted <;>
    simp [validateUuidM, hasImagePermissionM, emit, throwE, mBind_eq, mPure_eq, M.bind, hv, hp]

/-- Any run whose trace is produced by the gate satisfies the
fetch-after-permission ordering. -/
theorem gate_order {V α : Type} (env : ApiEnv V) (u : String) (k : Unit → M α) :
    permBeforeFetch (validateUuidM u >>= fun _ => hasImagePermissionM env >>= k).2 := by
  rw [gateBind_eq]
  by_cases hv : validUuid u
  · by_cases hp : env.permitted
    · simp only [hv, hp, if_true]
      intro _
      exact ⟨[Ev.validate], (k ()).2, rfl, by decide⟩
    · simp only [hv, hp, if_true, Bool.false_eq_true, if_false]
      intro _
      exact ⟨[Ev.validate], [], rfl, by decide⟩
  · simp only [hv, Bool.false_eq_true, if_false]
    intro hf
    simp at hf

/-- A denied gate produces the AuthError outcome with the two-step
trace. -/
theorem gate_denied {V α : Type} (env : ApiEnv V) (u : String) (k : Unit → M α)
    (hv : validUuid u = true) (hd : env.permitted = false) :
    (validateUuidM u >>= fun _ => hasImagePermissionM env >>= k) =
      (.error (.authError "Permission Denied"), [Ev.validate, Ev.permCheck]) := by
  rw [gateBind_eq]
  simp [hv, hd]

/-- C3 counterexample, two independent failures of the claim.  First,
a render_tile warmup request returns an empty success body before any
validation or permission check, even when the requesting user has no
permission on the image.  Second, a user whose permission the
database denies — with that very denial cached in Redis as the byte
string 0 — is granted access anyway, because the Redis layer of
_has_image_permission coerces the returned bytes with the bool
builtin and any non-empty byte string is truthy; the raw_tile request
then proceeds to a tile fetch and a cache write instead of raising
AuthError. -/
theorem c3_counterexample :
    deniedEnv.permitted = false ∧
    validUuid warmupReq.uuid = true ∧
    warmupReq.warmup = true ∧
    renderTile deniedEnv warmupReq = (.ok Out.empty, []) ∧
    c3RedisEnv.permDb = false ∧
    c3RedisEnv.permRedisGet = some "0" ∧
    c3RedisEnv.permitted = true ∧
    rawTile c3RedisEnv rawReq0 =
      (.ok (Out.bytes 2008), [.validate, .permCheck, .tileFetch, .cacheWrite]) :=
  ⟨by decide, by decide, rfl, rfl, rfl, rfl, by decide, rfl⟩

/-- C3 amended: except for warmup requests to render_tile and
prerendered_tile — which return an empty success body immediately,
with no validation, fetch, render or cache write — every public
tile-serving operation validates the image uuid and then consults the
permission subsystem: when the computed permission is false the
request fails with AuthError after exactly the validation and
permission steps (no tile fetch, no cache write), and in every run of
every handler any tile fetch occurs after the permission check.  The
computed permission, however, is not the true permission: whenever
the in-process dict misses and the configured Redis layer returns any
non-empty byte string — including the cached denial 0 — the bool
coercion grants access regardless of the database answer, so a denied
user with a Redis-cached denial is let through (the counterexample
shows the resulting fetch). -/
theorem c3_auth_gate :
    (∀ (V : Type) (env : ApiEnv V), env.permitted = false →
      (∀ req : RawTileReq, validUuid req.uuid = true →
        deniedOutcome (rawTile env req)) ∧
      (∀ req : RenderTileReq, validUuid req.uuid = true → req.warmup = false →
        deniedOutcome (renderTile env req)) ∧
      (∀ req : OmeroTileReq, validUuid req.uuid = true →
        deniedOutcome (omeroRenderTile env req)) ∧
      (∀ req : PrerenderedTileReq, validUuid req.uuid = true → req.warmup = false →
        deniedOutcome (prerenderedTile env req)) ∧
      (∀ req : RegionReq, validUuid req.uuid = true →
        deniedOutcome (renderRegion env req)) ∧
      (∀ req : AutoSettingsReq, validUuid req.uuid = true →
        deniedOutcome (getAutosettings env req))) ∧
    (∀ (V : Type) (env : ApiEnv V),
      (∀ req : RawTileReq, permBeforeFetch (rawTile env req).2) ∧
      (∀ req : RenderTileReq, permBeforeFetch (renderTile env req).2) ∧
      (∀ req : OmeroTileReq, permBeforeFetch (omeroRenderTile env req).2) ∧
      (∀ req : PrerenderedTileReq, permBeforeFetch (prerenderedTile env req).2) ∧
      (∀ req : RegionReq, permBeforeFetch (renderRegion env req).2) ∧
      (∀ req : AutoSettingsReq, permBeforeFetch (getAutosettings env req).2)) ∧
    (∀ (V : Type) (env : ApiEnv V) (bs : String),
      env.permDict = none → env.rawCache.isSome = true →
      env.permRedisGet = some bs → bs.length ≠ 0 →
      env.permitted = true) := by
  have hdo : ∀ (α : Type) (run : Except Err α × List Ev),
      run = (.error (.authError "Permission Denied"), [Ev.validate, Ev.permCheck]) →
      deniedOutcome run := by
    intro α run hrun
    refine ⟨by rw [hrun], by rw [hrun]; simp, by rw [hrun]; simp⟩
  refine ⟨?_, ?_, ?_⟩
  · intro V env hd
    refine ⟨?_, ?_, ?_, ?_, ?_, ?_⟩
    · intro req hv
      refine hdo _ _ ?_
      unfold rawTile
      exact gate_denied env req.uuid _ hv hd
    · intro req hv hw
      refine hdo _ _ ?_
      unfold renderTile
      simp only [hw, Bool.false_eq_true, if_false]
      exact gate_denied env req.uuid _ hv hd
    · intro req hv
      refine hdo _ _ ?_
      unfold omeroRenderTile
      exact gate_denied env req.uuid _ hv hd
    · intro req hv hw
      refine hdo _ _ ?_
      unfold prerenderedTile
      simp only [hw, Bool.false_eq_true, if_false]
      exact gate_denied env req.uuid _ hv hd
    · intro req hv
      refine hdo _ _ ?_
      unfold renderRegion
      exact gate_denied env req.uuid _ hv hd
    · intro req hv
      refine hdo _ _ ?_
      unfold getAutosettings
      exact gate_denied env req.uuid _ hv hd
  · intro V env
    refine ⟨?_, ?_, ?_, ?_, ?_, ?_⟩
    · intro req
      unfold rawTile
      exact gate_order env req.uuid _
    · intro req
      by_cases hw : req.warmup
      · intro hf
        unfold renderTile at hf
        simp [hw, M.pure] at hf
      · unfold renderTile
        simp only [hw, Bool.false_eq_true, if_false]
        exact gate_order env req.uuid _
    · intro req
      unfold omeroRenderTile
      exact gate_order env req.uuid _
    · intro req
      by_cases hw : req.warmup
      · intro hf
        unfold prerenderedTile at hf
        simp [hw, M.pure] at hf
      · unfold prerenderedTile
        simp only [hw, Bool.false_eq_true, if_false]
        exact gate_order env req.uuid _
    · intro req
      unfold renderRegion
      exact gate_order env req.uuid _
    · intro req
      unfold getAutosettings
      exact gate_order env req.uuid _
  · intro V env bs hdict hraw hget hne
    simp [ApiEnv.permitted, permLookup, hdict, hraw, hget, hne]

/-- C3 amended witness: with the computed permission false, a
raw_tile request with a valid uuid fails with AuthError after exactly
the validation and permission steps; and in the concrete environment
with a Redis-cached denial the computed permission comes out true. -/
theorem c3_auth_gate_witness :
    deniedOutcome (rawTile deniedEnv rawReq0) ∧
    permBeforeFetch (renderTile deniedEnv warmupReq).2 ∧
    c3RedisEnv.permitted = true :=
  ⟨(c3_auth_gate.1 Nat deniedEnv (by decide)).1 rawReq0 (by decide),
   (c3_auth_gate.2.1 Nat deniedEnv).2.1 warmupReq,
   c3_auth_gate.2.2 Nat c3RedisEnv "0" rfl rfl rfl (by decide)⟩

end Minerva
